import Mathlib

/-!
Shallow embedding of the device-abstraction layer of the appium-mcp
repository (Python sources under `src/`): the coordinate/scale utilities,
the Android backend's shell-command construction, the element-tree
filtering of the three backends, the WebDriverAgent session discipline,
the PNG header parser and the screenshot-optimization tool flow.

Python `float` arithmetic is modelled with `ℚ` (all constants appearing in
the claims are exactly representable and the concrete scenario values were
checked against CPython's float results); Python `int(...)` truncation is
`pyInt`, Python `//` is `pyFloorDiv`.
-/

namespace AppiumMcp

/-- Python `int(q)` on a float/rational: truncation toward zero. -/
def pyInt (q : ℚ) : Int :=
  if q < 0 then -(Int.floor (-q)) else Int.floor q

/-- Python `a // b` on integers: floor division. -/
def pyFloorDiv (a b : Int) : Int := Int.fdiv a b

/-- Python truthiness of an `Optional[str]`: `None` and `""` are falsy. -/
def pyTruthy : Option String → Bool
  | none => false
  | some s => s ≠ ""

/-- Python `a or b` where `a : Optional[str]` and `b` is a string default. -/
def pyOrStr (a : Option String) (b : String) : String :=
  if pyTruthy a then a.getD "" else b

/-- `ScreenSize` from `src/robot.py` (logical width/height plus scale). -/
structure ScreenSize where
  width : Int
  height : Int
  scale : ℚ
deriving DecidableEq, Repr

/-- `ScreenElementRect` from `src/robot.py`. -/
structure ScreenElementRect where
  x : Int
  y : Int
  width : Int
  height : Int
deriving DecidableEq, Repr

/-- `ScreenElement` from `src/robot.py`. -/
structure ScreenElement where
  type : String
  rect : ScreenElementRect
  label : Option String := none
  text : Option String := none
  name : Option String := none
  value : Option String := none
  identifier : Option String := none
  focused : Option Bool := none
deriving DecidableEq, Repr

/-- `SwipeDirection` literal type from `src/robot.py`. -/
inductive SwipeDirection | up | down | left | right
deriving DecidableEq, Repr

/-- Errors raised by the Python code, as a value type. -/
inductive PyError
  | actionable (msg : String)
  | attributeError (attr : String)
  | valueError (msg : String)
  | structUnpackError
deriving DecidableEq, Repr

instance {ε α : Type} [DecidableEq ε] [DecidableEq α] : DecidableEq (Except ε α) := fun a b =>
  match a, b with
  | .ok x, .ok y =>
      if h : x = y then .isTrue (by rw [h])
      else .isFalse (fun hc => h (Except.ok.inj hc))
  | .ok _, .error _ => .isFalse (fun hc => Except.noConfusion hc)
  | .error _, .ok _ => .isFalse (fun hc => Except.noConfusion hc)
  | .error x, .error y =>
      if h : x = y then .isTrue (by rw [h])
      else .isFalse (fun hc => h (Except.error.inj hc))

/-! ### Coordinate conversion (claim C4)

`AndroidRobot.tap` (src/android.py:531-536) converts logical to pixel
coordinates with `int(x * scale)`; `AndroidRobot._get_screen_element_rect`
(src/android.py:622-642) converts pixel values back with `int(p / scale)`.
-/

/-- Logical → pixel conversion as issued by `AndroidRobot.tap`: `int(x * scale)`. -/
def toPixels (x : Int) (scale : ℚ) : Int := pyInt ((x : ℚ) * scale)

/-- Pixel → logical conversion as in `AndroidRobot._get_screen_element_rect`:
`int(p / scale)`. -/
def toLogical (p : Int) (scale : ℚ) : Int := pyInt ((p : ℚ) / scale)

/-! ### Android swipe (claim C5)

`AndroidRobot.swipe` (src/android.py:260-289): computes endpoints from the
logical screen size, converts to pixels with the cached scale, and issues a
single `adb shell input swipe` command with duration 1000 ms.
-/

/-- The argument list handed to `adb` by `AndroidRobot.swipe`
(src/android.py:260-289), or the unsupported-direction error.  The float
literals `0.80`/`0.20` are modelled as the exact rationals they denote
(the truncated products agree with CPython's float results for the
concrete sizes considered here). -/
def android_swipe (screenSize : ScreenSize) (scale : ℚ) (direction : SwipeDirection) :
    Except PyError (List String) :=
  let center_x := pyFloorDiv screenSize.width 2
  let center_y := pyFloorDiv screenSize.height 2
  let pts : Int × Int × Int × Int :=
    match direction with
    | .up =>
        (center_x, pyInt ((screenSize.height : ℚ) * (80/100)),
         center_x, pyInt ((screenSize.height : ℚ) * (20/100)))
    | .down =>
        (center_x, pyInt ((screenSize.height : ℚ) * (20/100)),
         center_x, pyInt ((screenSize.height : ℚ) * (80/100)))
    | .left =>
        (pyInt ((screenSize.width : ℚ) * (80/100)), center_y,
         pyInt ((screenSize.width : ℚ) * (20/100)), center_y)
    | .right =>
        (pyInt ((screenSize.width : ℚ) * (20/100)), center_y,
         pyInt ((screenSize.width : ℚ) * (80/100)), center_y)
  match pts with
  | (x0, y0, x1, y1) =>
    let px0 := pyInt ((x0 : ℚ) * scale)
    let py0 := pyInt ((y0 : ℚ) * scale)
    let px1 := pyInt ((x1 : ℚ) * scale)
    let py1 := pyInt ((y1 : ℚ) * scale)
    .ok ["shell", "input", "swipe", toString px0, toString py0,
         toString px1, toString py1, "1000"]

/-! ### WebDriverAgent session discipline (claim C1)

`WebDriverAgent.create_session` / `delete_session` / `within_session`
(src/webdriver_agent.py:91-118).  The HTTP traffic is modelled as a log of
requests; `fn` is the wrapped operation, which emits its own requests (the
inner closures of the client only post to session-scoped action endpoints)
and either returns a value or raises.
-/

/-- An HTTP request issued by a protocol client, identified by method and URL. -/
inductive HttpRequest
  | post (url : String)
  | get (url : String)
  | delete (url : String)
deriving DecidableEq, Repr

/-- `create_session`: POST `{base_url}/session`, returning the session id the
server hands back (here a parameter, since the transport is mocked). -/
def create_session (baseUrl sid : String) : String × List HttpRequest :=
  (sid, [.post (baseUrl ++ "/session")])

/-- `delete_session`: DELETE `{base_url}/session/{session_id}`. -/
def delete_session (baseUrl sid : String) : List HttpRequest :=
  [.delete (baseUrl ++ "/session/" ++ sid)]

/-- `within_session`: create a session, run `fn` on the session URL inside
`try`, and delete the session in the `finally` block — on the normal-return
path and on the exception path alike.  Returns the result (or re-raised
exception) together with the full request log. -/
def within_session (baseUrl sid : String)
    (fn : String → Except String α × List HttpRequest) :
    Except String α × List HttpRequest :=
  let (sessionId, createLog) := create_session baseUrl sid
  let sessionUrl := baseUrl ++ "/session/" ++ sessionId
  let (r, fnLog) := fn sessionUrl
  match r with
  | .ok v =>
      -- `return result` runs the `finally` (delete) before returning
      (.ok v, createLog ++ fnLog ++ delete_session baseUrl sessionId)
  | .error e =>
      -- an exception from `fn` still runs the `finally` (delete), then propagates
      (.error e, createLog ++ fnLog ++ delete_session baseUrl sessionId)

/-- Is this request a session-create (POST `{base_url}/session`)? -/
def isSessionCreate (baseUrl : String) (r : HttpRequest) : Bool :=
  r = .post (baseUrl ++ "/session")

/-- Is this request the session-delete for session `sid`? -/
def isSessionDeleteFor (baseUrl sid : String) (r : HttpRequest) : Bool :=
  r = .delete (baseUrl ++ "/session/" ++ sid)

/-! ### UI element extraction (claims C2, C3, C6)

The Android backend parses `uiautomator dump` XML with
`AndroidRobot._collect_elements` / `_get_screen_element_rect`
(src/android.py:423-456, 622-642); the UiAutomator2 client parses its XML
page source with `UiAutomator2Server._parse_xml_elements`
(src/uiautomator2_server.py:454-501); the WebDriverAgent client filters its
JSON accessibility tree with `WebDriverAgent._filter_source_elements`
(src/webdriver_agent.py:257-294).
-/

/-- An XML element as exposed by `xml.etree.ElementTree`: attributes and
child elements (tag text is unused by the code). -/
inductive XmlNode where
  | node (attrs : List (String × String)) (children : List XmlNode)

/-- `ET.Element.get(key)`: the attribute's value, or `None`. -/
def XmlNode.getAttr : XmlNode → String → Option String
  | .node attrs _, key => (attrs.find? (fun p => p.1 = key)).map (fun p => p.2)

/-- `ET.Element.get(key, default)`. -/
def XmlNode.getAttrD (n : XmlNode) (key d : String) : String :=
  (n.getAttr key).getD d

/-- The numeric value of a digit run (a `(\d+)` capture group). -/
def charsToNat (ds : List Char) : Nat :=
  ds.foldl (fun acc c => 10 * acc + (c.toNat - 48)) 0

/-- Split a character list into its leading run of decimal digits and the rest. -/
def takeDigits : List Char → List Char × List Char
  | [] => ([], [])
  | c :: cs =>
    if c.isDigit then
      let (ds, rest) := takeDigits cs
      (c :: ds, rest)
    else ([], c :: cs)

/-- One `(\d+)` capture group: at least one digit, consumed greedily. -/
def parseGroup (cs : List Char) : Option (Nat × List Char) :=
  match takeDigits cs with
  | ([], _) => none
  | (ds, rest) => some (charsToNat ds, rest)

/-- Consume one expected literal character. -/
def expectChar (c : Char) : List Char → Option (List Char)
  | [] => none
  | x :: xs => if x = c then some xs else none

/-- The anchored regex `^\[(\d+),(\d+)\]\[(\d+),(\d+)\]$` over a character
list, yielding `(left, top, right, bottom)`. -/
def parseBoundsChars (cs : List Char) : Option (Nat × Nat × Nat × Nat) := do
  let cs ← expectChar '[' cs
  let (l, cs) ← parseGroup cs
  let cs ← expectChar ',' cs
  let (t, cs) ← parseGroup cs
  let cs ← expectChar ']' cs
  let cs ← expectChar '[' cs
  let (r, cs) ← parseGroup cs
  let cs ← expectChar ',' cs
  let (b, cs) ← parseGroup cs
  let cs ← expectChar ']' cs
  match cs with
  | [] => some (l, t, r, b)
  | _ => none

/-- The regex match `^\[(\d+),(\d+)\]\[(\d+),(\d+)\]$` applied to a `bounds`
attribute (src/android.py:629, src/uiautomator2_server.py:472). -/
def parseBounds (s : String) : Option (Nat × Nat × Nat × Nat) :=
  parseBoundsChars s.data

/-- `AndroidRobot._get_screen_element_rect`: parse `bounds` and convert the
pixel values to logical units with `int(p / scale)`; unmatched bounds yield
the zero rectangle. -/
def get_screen_element_rect (scale : ℚ) (n : XmlNode) : ScreenElementRect :=
  match parseBounds (n.getAttrD "bounds" "") with
  | some (l, t, r, b) =>
      { x := pyInt ((l : ℚ) / scale), y := pyInt ((t : ℚ) / scale),
        width := pyInt ((((r : Int) - (l : Int)) : ℚ) / scale),
        height := pyInt ((((b : Int) - (t : Int)) : ℚ) / scale) }
  | none => ⟨0, 0, 0, 0⟩

/-- The element built by `AndroidRobot._collect_elements` for one XML node
(the body of the `if text or content_desc or hint` block). -/
def collect_current (scale : ℚ) (n : XmlNode) : List ScreenElement :=
  let text := n.getAttr "text"
  let contentDesc := n.getAttr "content-desc"
  let hint := n.getAttr "hint"
  if pyTruthy text || pyTruthy contentDesc || pyTruthy hint then
    let rect := get_screen_element_rect scale n
    if rect.width > 0 ∧ rect.height > 0 then
      [{ type := n.getAttrD "class" "text", text := text,
         label := some (pyOrStr contentDesc (pyOrStr hint "")),
         rect := rect,
         focused := if n.getAttr "focused" = some "true" then some true else none,
         identifier :=
           if pyTruthy (n.getAttr "resource-id") then n.getAttr "resource-id"
           else none }]
    else []
  else []

mutual

/-- `AndroidRobot._collect_elements`: children first, then the node itself if
it has truthy `text`/`content-desc`/`hint` and a strictly positive-area
rectangle. -/
def collect_elements (scale : ℚ) : XmlNode → List ScreenElement
  | .node attrs children =>
    collect_elements_list scale children ++
      collect_current scale (XmlNode.node attrs children)
  termination_by structural n => n

/-- The `for child in node: elements.extend(...)` loop of `_collect_elements`. -/
def collect_elements_list (scale : ℚ) : List XmlNode → List ScreenElement
  | [] => []
  | c :: cs => collect_elements scale c ++ collect_elements_list scale cs
  termination_by structural l => l

end

/-- The element built by `UiAutomator2Server._parse_xml_elements.parse_node`
for one XML node (emitted only when `text`/`content-desc` is truthy and
`bounds` matches the regex; bounds stay in raw pixels). -/
def ua2_current (n : XmlNode) : List ScreenElement :=
  let text := n.getAttr "text"
  let contentDesc := n.getAttr "content-desc"
  let resourceId := n.getAttr "resource-id"
  if pyTruthy text || pyTruthy contentDesc then
    match parseBounds (n.getAttrD "bounds" "") with
    | some (l, t, r, b) =>
        [{ type := n.getAttrD "class" "text", text := text,
           label := some (pyOrStr contentDesc ""),
           rect := { x := (l : Int), y := (t : Int),
                     width := (r : Int) - (l : Int),
                     height := (b : Int) - (t : Int) },
           focused := if n.getAttr "focused" = some "true" then some true else none,
           identifier := if pyTruthy resourceId then resourceId else none }]
    | none => []
  else []

mutual

/-- The recursive walker inside `UiAutomator2Server._parse_xml_elements`:
the node itself first, then the children. -/
def ua2_parse_node : XmlNode → List ScreenElement
  | .node attrs children =>
    ua2_current (XmlNode.node attrs children) ++ ua2_parse_list children
  termination_by structural n => n

/-- The `for child in node: parse_node(child)` loop. -/
def ua2_parse_list : List XmlNode → List ScreenElement
  | [] => []
  | c :: cs => ua2_parse_node c ++ ua2_parse_list cs
  termination_by structural l => l

end

/-- `UiAutomator2Server._parse_xml_elements`: an XML parse error yields the
empty list; otherwise the recursive walk from the root. -/
def ua2_parse_xml_elements (parseResult : Except Unit XmlNode) : List ScreenElement :=
  match parseResult with
  | .error _ => []
  | .ok root => ua2_parse_node root

/-- `SourceTreeElementRect` from src/webdriver_agent.py. -/
structure SourceTreeElementRect where
  x : Int
  y : Int
  width : Int
  height : Int
deriving DecidableEq, Repr

/-- `SourceTreeElement` from src/webdriver_agent.py (recursive, so an
inductive rather than a structure). -/
inductive SourceTreeElement where
  | mk (type : String) (rect : SourceTreeElementRect) (label : Option String)
      (name : Option String) (value : Option String) (rawIdentifier : Option String)
      (isVisible : Option String) (children : Option (List SourceTreeElement))

/-- The `accepted_types` allow-list in `_filter_source_elements`. -/
def accepted_types : List String :=
  ["TextField", "Button", "Switch", "Icon", "SearchField", "StaticText", "Image"]

/-- `WebDriverAgent._is_visible`: non-negative origin. -/
def wda_is_visible (rect : SourceTreeElementRect) : Bool :=
  rect.x ≥ 0 ∧ rect.y ≥ 0

/-- The element built by `_filter_source_elements` for one source-tree node:
type on the allow-list, marked visible, and truthy label/name/rawIdentifier. -/
def filter_current (ty : String) (rect : SourceTreeElementRect)
    (label name value rawIdentifier isVisible : Option String) : List ScreenElement :=
  if ty ∈ accepted_types then
    if isVisible = some "1" && wda_is_visible rect then
      if pyTruthy label || pyTruthy name || pyTruthy rawIdentifier then
        [{ type := ty, label := label, name := name, value := value,
           identifier := rawIdentifier,
           rect := ⟨rect.x, rect.y, rect.width, rect.height⟩ }]
      else []
    else []
  else []

mutual

/-- `WebDriverAgent._filter_source_elements`: the node itself, then the
children (`if source.children:` treats `None` and `[]` alike). -/
def filter_source_elements : SourceTreeElement → List ScreenElement
  | .mk ty rect label name value rawIdentifier isVisible children =>
    filter_current ty rect label name value rawIdentifier isVisible ++
      (match children with
       | some cs => filter_source_list cs
       | none => [])
  termination_by structural t => t

/-- The `for child in source.children: output.extend(...)` loop. -/
def filter_source_list : List SourceTreeElement → List ScreenElement
  | [] => []
  | c :: cs => filter_source_elements c ++ filter_source_list cs
  termination_by structural l => l

end

/-- The "useful element" criterion of the spec: at least one of
text/label/name/identifier is present and non-empty. -/
def usefulElement (e : ScreenElement) : Bool :=
  pyTruthy e.text || pyTruthy e.label || pyTruthy e.name || pyTruthy e.identifier

/-! ### Android fast-path probing and fallback (claim C2)

`AndroidRobot._get_ua2_server` (src/android.py:117-153) probes the
UiAutomator2 server; `AndroidRobot.get_elements_on_screen`
(src/android.py:458-477) tries the fast path inside `try/except` and falls
back to the `uiautomator dump` path.  The transport is a mock: each
`is_running` HTTP call consumes one entry of `statusPolls` (`.error` = the
request raised, `.ok b` = the `status == 200` check returned `b`; an
exhausted list behaves like a raising request).
-/

/-- Mocked outcomes of the UiAutomator2 probe and element fetch. -/
structure Ua2Env where
  useAppium : Bool
  statusPolls : List (Except Unit Bool)
  installedCheck : Except Unit Bool
  startServerRaises : Bool
  elementsResult : Except Unit (List ScreenElement)

/-- `UiAutomator2Server.is_running`: one HTTP status probe; any exception is
caught and yields `False`. -/
def isRunningOnce : List (Except Unit Bool) → Bool × List (Except Unit Bool)
  | [] => (false, [])
  | .ok b :: rest => (b, rest)
  | .error _ :: rest => (false, rest)

/-- `UiAutomator2Server.is_server_installed`: any exception is caught and
yields `False`. -/
def is_server_installed (env : Ua2Env) : Bool :=
  match env.installedCheck with
  | .ok b => b
  | .error _ => false

/-- `UiAutomator2Server.wait_for_server`: poll `is_running` up to `timeout`
times, returning `False` on timeout rather than raising. -/
def wait_for_server : Nat → List (Except Unit Bool) → Bool × List (Except Unit Bool)
  | 0, polls => (false, polls)
  | n + 1, polls =>
    let (r, rest) := isRunningOnce polls
    if r then (true, rest) else wait_for_server n rest

/-- `AndroidRobot._get_ua2_server` on a fresh instance: `true` means the fast
path is available (the method returned a server client), `false` means it
returned `None`.  Every probe failure is caught internally. -/
def get_ua2_server (env : Ua2Env) : Bool :=
  if ¬ env.useAppium then false
  else
    let (running, polls1) := isRunningOnce env.statusPolls
    if running then true
    else if ¬ is_server_installed env then false
    else if env.startServerRaises then false
    else (wait_for_server 10 polls1).1

/-- `AndroidRobot.get_elements_on_screen`: try the UiAutomator2 fast path
inside `try/except`, falling back to the parsed `uiautomator dump` tree on
`None` or on any fast-path exception. -/
def android_get_elements_on_screen (env : Ua2Env) (scale : ℚ) (dump : XmlNode) :
    Except Unit (List ScreenElement) :=
  if get_ua2_server env then
    match env.elementsResult with
    | .ok elems => .ok elems
    | .error _ => .ok (collect_elements scale dump)
  else .ok (collect_elements scale dump)

/-! ### Android send_keys and the input method (claim C7)

`AndroidRobot.send_keys` (src/android.py:487-522): ASCII text goes through
`input text`; non-ASCII text switches the IME to the Appium Unicode IME via
`ime set` (inside `try/except pass`) and then broadcasts the text.  The
device's active-IME setting is the relevant state.
-/

/-- ADB commands issued by `send_keys`. -/
inductive AdbCmd
  | inputText (t : String)
  | imeSet (ime : String)
  | broadcastText (t : String)
deriving DecidableEq, Repr

/-- The device state `send_keys` can affect: the active input method. -/
structure ImeState where
  activeIme : String
deriving DecidableEq, Repr

/-- The IME id hardcoded in `send_keys`. -/
def UNICODE_IME : String := "io.appium.settings/.UnicodeIME"

/-- `text.encode("ascii")` succeeds exactly when every code point is ≤ 127. -/
def isAsciiStr (s : String) : Bool :=
  s.data.all (fun c => c.toNat ≤ 127)

/-- `AndroidRobot.send_keys`: the resulting device state and issued commands.
`imeSetSucceeds` mocks whether the `ime set` shell command succeeds (its
failure is swallowed by the `try/except pass` and leaves the IME unchanged). -/
def android_send_keys (imeSetSucceeds : Bool) (text : String) (st : ImeState) :
    ImeState × List AdbCmd :=
  if isAsciiStr text then
    (st, [.inputText (text.replace " " "\\ ")])
  else
    let st1 := if imeSetSucceeds then { activeIme := UNICODE_IME } else st
    (st1, [.imeSet UNICODE_IME, .broadcastText text])

/-! ### Screenshot optimization flow (claim C8)

`ImageTransformer.to_buffer` (src/image_utils.py:116-130) tries `sips` when
installed, falls back to ImageMagick, and raises `RuntimeError` when both
fail; `is_scaling_available` (src/image_utils.py:191-193) is
`is_imagemagick_installed() or is_sips_installed()`.  The
`mobile_take_screenshot` branch of `handle_call_tool`
(src/server.py:649-680) validates the PNG, optimizes only when scaling is
available, and the enclosing `try/except` (src/server.py:470,771-775) turns
any raised exception into an error text response.
-/

/-- Mocked availability and outcomes of the external image transformers. -/
structure TransformEnv where
  sipsInstalled : Bool
  magickInstalled : Bool
  sipsResult : Except Unit (List Nat)
  magickResult : Except Unit (List Nat)

/-- `is_scaling_available()`. -/
def is_scaling_available (env : TransformEnv) : Bool :=
  env.magickInstalled || env.sipsInstalled

/-- `ImageTransformer.to_buffer`: sips first (when installed, any failure
falls through), then ImageMagick; a failing ImageMagick run is the
`RuntimeError` raise. -/
def to_buffer (env : TransformEnv) : Except Unit (List Nat) :=
  if env.sipsInstalled then
    match env.sipsResult with
    | .ok b => .ok b
    | .error _ => env.magickResult
  else env.magickResult

/-- A tool response from `handle_call_tool`: an image payload, or the text
produced by the error handlers. -/
inductive ToolResponse
  | image (data : List Nat) (mime : String)
  | text (msg : String)
deriving DecidableEq, Repr

/-- The `mobile_take_screenshot` flow, given the captured PNG bytes and its
parsed dimensions: validity check, optional optimization, and the
dispatcher's generic exception handler for a raised transform error. -/
def mobile_take_screenshot (env : TransformEnv) (screenshot : List Nat)
    (pngWidth pngHeight : Int) : ToolResponse :=
  if pngWidth ≤ 0 ∨ pngHeight ≤ 0 then
    .text "invalid screenshot, retry"
  else if is_scaling_available env then
    match to_buffer env with
    | .ok buf => .image buf "image/jpeg"
    | .error _ => .text "Image scaling unavailable (requires Sips or ImageMagick)."
  else .image screenshot "image/png"

/-! ### hide_keyboard / clear_text_field delegation (claim C9)

`IosRobot.hide_keyboard` (src/ios.py:281-284) and `Simctl.hide_keyboard` /
`Simctl.clear_text_field` (src/iphone_simulator.py:235-243) call
`wda.hide_keyboard()` / `wda.clear_text_field()` after their precondition
chains; attribute lookup on the `WebDriverAgent` class
(src/webdriver_agent.py:49-521) decides whether such a call can succeed.
-/

/-- The methods defined on the `WebDriverAgent` class in
src/webdriver_agent.py, in source order. -/
def wdaMethods : List String :=
  ["_get_connector", "_create_session", "is_running", "create_session",
   "delete_session", "within_session", "get_screen_size", "send_keys",
   "press_button", "tap", "double_tap", "long_press", "_is_visible",
   "_filter_source_elements", "get_page_source", "_parse_source_tree",
   "get_elements_on_screen", "open_url", "swipe", "swipe_between_points",
   "swipe_from_coordinate", "set_orientation", "get_orientation"]

/-- Python method call `wda.<name>(...)`: `AttributeError` when the class
defines no such method. -/
def callWda (name : String) : Except PyError Unit :=
  if name ∈ wdaMethods then .ok () else .error (.attributeError name)

/-- The preconditions probed by `IosRobot._wda` (src/ios.py:86-113). -/
structure IosEnv where
  tunnelRequired : Bool
  tunnelRunning : Bool
  forwardRunning : Bool
  agentRunning : Bool

/-- `IosRobot._wda`: tunnel (when required), port-forward, then agent status,
each failing with its own actionable error (messages abbreviated). -/
def ios_wda (env : IosEnv) : Except PyError Unit :=
  if env.tunnelRequired ∧ ¬ env.tunnelRunning then
    .error (.actionable "iOS tunnel is not running")
  else if ¬ env.forwardRunning then
    .error (.actionable "WebDriverAgent port forwarding is not running")
  else if ¬ env.agentRunning then
    .error (.actionable "WebDriverAgent is not running on the device")
  else .ok ()

/-- `IosRobot.hide_keyboard`: precondition chain, then `wda.hide_keyboard()`. -/
def ios_hide_keyboard (env : IosEnv) : Except PyError Unit :=
  match ios_wda env with
  | .error e => .error e
  | .ok _ => callWda "hide_keyboard"

/-- `Simctl._wda` (src/iphone_simulator.py:56-66): only an agent-running
check. -/
def simctl_wda (agentRunning : Bool) : Except PyError Unit :=
  if ¬ agentRunning then
    .error (.actionable "WebDriverAgent is not running on the simulator")
  else .ok ()

/-- `Simctl.hide_keyboard`: precondition, then `wda.hide_keyboard()`. -/
def simctl_hide_keyboard (agentRunning : Bool) : Except PyError Unit :=
  match simctl_wda agentRunning with
  | .error e => .error e
  | .ok _ => callWda "hide_keyboard"

/-- `Simctl.clear_text_field`: precondition, then `wda.clear_text_field()`. -/
def simctl_clear_text_field (agentRunning : Bool) : Except PyError Unit :=
  match simctl_wda agentRunning with
  | .error e => .error e
  | .ok _ => callWda "clear_text_field"

/-! ### PNG dimension parsing (claim C10)

`PNG.get_dimensions` (src/png.py:23-37): an 8-byte signature check raising
`ValueError`, then `struct.unpack('>I', buffer[16:20])` and
`struct.unpack('>I', buffer[20:24])`; `struct.unpack` raises `struct.error`
when the slice is shorter than 4 bytes.
-/

/-- The PNG signature bytes. -/
def pngSignature : List Nat := [137, 80, 78, 71, 13, 10, 26, 10]

/-- `PngDimensions` from src/png.py. -/
structure PngDimensions where
  width : Nat
  height : Nat
deriving DecidableEq, Repr

/-- `struct.unpack('>I', b)`: big-endian 32-bit unsigned. -/
def beU32 (b0 b1 b2 b3 : Nat) : Nat :=
  ((b0 * 256 + b1) * 256 + b2) * 256 + b3

/-- `PNG.get_dimensions` over the buffer's bytes.  A slice `buffer[16:20]`
shorter than 4 bytes makes `struct.unpack` raise (`structUnpackError`). -/
def png_get_dimensions (buffer : List Nat) : Except PyError PngDimensions :=
  if buffer.take 8 ≠ pngSignature then
    .error (.valueError "not a valid PNG")
  else
    match (buffer.drop 16).take 4, (buffer.drop 20).take 4 with
    | [w0, w1, w2, w3], [h0, h1, h2, h3] =>
        .ok ⟨beU32 w0 w1 w2 w3, beU32 h0 h1 h2 h3⟩
    | _, _ => .error .structUnpackError

/-- `pyInt` agrees with `Int.floor` on non-negative arguments. -/
theorem pyInt_eq_floor (q : ℚ) (h : 0 ≤ q) : pyInt q = Int.floor q := by
  simp [pyInt, not_lt.mpr h]

/-- C4: for every non-negative logical coordinate `x` and every scale `s ≥ 1`,
converting to pixels with `int(x * s)` (as `AndroidRobot.tap` does) and back
with `int(p / s)` (as `AndroidRobot._get_screen_element_rect` does) yields a
value within ±1 of `x`. -/
theorem toLogical_toPixels_roundtrip (x : Int) (s : ℚ) (hx : 0 ≤ x) (hs : 1 ≤ s) :
    |toLogical (toPixels x s) s - x| ≤ 1 := by
  have hs0 : (0 : ℚ) < s := lt_of_lt_of_le one_pos hs
  have hxq : (0 : ℚ) ≤ (x : ℚ) := by exact_mod_cast hx
  have hxs : (0 : ℚ) ≤ (x : ℚ) * s := by positivity
  have hpix : toPixels x s = Int.floor ((x : ℚ) * s) := pyInt_eq_floor _ hxs
  set p := Int.floor ((x : ℚ) * s) with hp
  have hpq : (0 : ℚ) ≤ (p : ℚ) := by
    exact_mod_cast Int.le_floor.mpr (by exact_mod_cast hxs)
  have hp0 : (0 : ℚ) ≤ (p : ℚ) / s := div_nonneg hpq hs0.le
  have hlog : toLogical p s = Int.floor ((p : ℚ) / s) := pyInt_eq_floor _ hp0
  have hub : Int.floor ((p : ℚ) / s) ≤ x := by
    have h1 : (p : ℚ) ≤ (x : ℚ) * s := Int.floor_le _
    have h2 : (p : ℚ) / s ≤ (x : ℚ) := by
      rw [div_le_iff₀ hs0]
      exact h1
    calc Int.floor ((p : ℚ) / s) ≤ Int.floor ((x : ℚ)) := Int.floor_le_floor h2
      _ = x := Int.floor_intCast x
  have hlb : x - 1 ≤ Int.floor ((p : ℚ) / s) := by
    have h1 : (x : ℚ) * s < (p : ℚ) + 1 := Int.lt_floor_add_one _
    have hinv : 1 / s ≤ 1 := by
      rw [div_le_one hs0]; exact hs
    have h2 : (x : ℚ) - 1 ≤ (p : ℚ) / s := by
      have h3 : (x : ℚ) < ((p : ℚ) + 1) / s := by
        rw [lt_div_iff₀ hs0]
        exact h1
      have h4 : ((p : ℚ) + 1) / s = (p : ℚ) / s + 1 / s := by ring
      nlinarith
    rw [Int.le_floor]
    push_cast
    exact h2
  rw [toPixels] at *
  rw [hpix, hlog]
  rw [abs_le]
  constructor <;> omega

theorem pyTruthy_some_iff (s : String) : pyTruthy (some s) = true ↔ s ≠ "" := by
  simp [pyTruthy]

theorem pyOrStr_truthy {a : Option String} (b : String) (h : pyTruthy a = true) :
    pyOrStr a b ≠ "" := by
  cases a with
  | none => simp [pyTruthy] at h
  | some s =>
    rw [pyTruthy_some_iff] at h
    simp [pyOrStr, pyTruthy, h]

theorem pyOrStr_falsy {a : Option String} (b : String) (h : pyTruthy a = false) :
    pyOrStr a b = b := by
  simp [pyOrStr, h]

/-- Every element emitted for a single node by `_collect_elements` has truthy
text or a truthy label. -/
theorem collect_current_useful (scale : ℚ) (n : XmlNode) :
    ∀ e ∈ collect_current scale n, usefulElement e = true := by
  intro e he
  unfold collect_current at he
  by_cases h : (pyTruthy (n.getAttr "text") || pyTruthy (n.getAttr "content-desc")
      || pyTruthy (n.getAttr "hint")) = true
  · rw [if_pos h] at he
    by_cases h2 : (get_screen_element_rect scale n).width > 0 ∧
        (get_screen_element_rect scale n).height > 0
    · rw [if_pos h2] at he
      have he' := List.mem_singleton.mp he
      subst he'
      simp only [usefulElement, Bool.or_eq_true]
      simp only [Bool.or_eq_true] at h
      rcases h with (h | h) | h
      · exact Or.inl (Or.inl (Or.inl h))
      · refine Or.inl (Or.inl (Or.inr ?_))
        rw [pyTruthy_some_iff]
        exact pyOrStr_truthy _ h
      · refine Or.inl (Or.inl (Or.inr ?_))
        rw [pyTruthy_some_iff]
        by_cases hc : pyTruthy (n.getAttr "content-desc") = true
        · exact pyOrStr_truthy _ hc
        · rw [pyOrStr_falsy _ (Bool.eq_false_iff.mpr hc)]
          exact pyOrStr_truthy _ h
    · rw [if_neg h2] at he
      cases he
  · rw [if_neg h] at he
    cases he

theorem collect_elements_useful (scale : ℚ) (n : XmlNode) :
    ∀ e ∈ collect_elements scale n, usefulElement e = true := by
  refine XmlNode.rec
    (motive_1 := fun n => ∀ e ∈ collect_elements scale n, usefulElement e = true)
    (motive_2 := fun cs => ∀ e ∈ collect_elements_list scale cs, usefulElement e = true)
    ?_ ?_ ?_ n
  · intro attrs children ih e he
    rw [collect_elements] at he
    rcases List.mem_append.mp he with h | h
    · exact ih e h
    · exact collect_current_useful scale _ e h
  · intro e he
    rw [collect_elements_list] at he
    cases he
  · intro head tail ih1 ih2 e he
    rw [collect_elements_list] at he
    rcases List.mem_append.mp he with h | h
    exacts [ih1 e h, ih2 e h]

theorem ua2_current_useful (n : XmlNode) :
    ∀ e ∈ ua2_current n, usefulElement e = true := by
  intro e he
  unfold ua2_current at he
  by_cases h : (pyTruthy (n.getAttr "text") || pyTruthy (n.getAttr "content-desc")) = true
  · rw [if_pos h] at he
    rcases hb : parseBounds (n.getAttrD "bounds" "") with _ | ⟨l, t, r, bo⟩ <;> rw [hb] at he
    · cases he
    · have he' := List.mem_singleton.mp he
      subst he'
      simp only [usefulElement, Bool.or_eq_true]
      simp only [Bool.or_eq_true] at h
      rcases h with h | h
      · exact Or.inl (Or.inl (Or.inl h))
      · refine Or.inl (Or.inl (Or.inr ?_))
        rw [pyTruthy_some_iff]
        exact pyOrStr_truthy _ h
  · rw [if_neg h] at he
    cases he

theorem ua2_parse_node_useful (n : XmlNode) :
    ∀ e ∈ ua2_parse_node n, usefulElement e = true := by
  refine XmlNode.rec
    (motive_1 := fun n => ∀ e ∈ ua2_parse_node n, usefulElement e = true)
    (motive_2 := fun cs => ∀ e ∈ ua2_parse_list cs, usefulElement e = true)
    ?_ ?_ ?_ n
  · intro attrs children ih e he
    rw [ua2_parse_node] at he
    rcases List.mem_append.mp he with h | h
    · exact ua2_current_useful _ e h
    · exact ih e h
  · intro e he
    rw [ua2_parse_list] at he
    cases he
  · intro head tail ih1 ih2 e he
    rw [ua2_parse_list] at he
    rcases List.mem_append.mp he with h | h
    exacts [ih1 e h, ih2 e h]

theorem filter_current_useful (ty : String) (rect : SourceTreeElementRect)
    (label name value rawIdentifier isVisible : Option String) :
    ∀ e ∈ filter_current ty rect label name value rawIdentifier isVisible,
      usefulElement e = true := by
  intro e he
  unfold filter_current at he
  by_cases h1 : ty ∈ accepted_types
  · rw [if_pos h1] at he
    by_cases h2 : (decide (isVisible = some "1") && wda_is_visible rect) = true
    · rw [if_pos h2] at he
      by_cases h3 : (pyTruthy label || pyTruthy name || pyTruthy rawIdentifier) = true
      · rw [if_pos h3] at he
        have he' := List.mem_singleton.mp he
        subst he'
        simp only [usefulElement, Bool.or_eq_true]
        simp only [Bool.or_eq_true] at h3
        rcases h3 with (h | h) | h
        · exact Or.inl (Or.inl (Or.inr h))
        · exact Or.inl (Or.inr h)
        · exact Or.inr h
      · rw [if_neg h3] at he
        cases he
    · rw [if_neg h2] at he
      cases he
  · rw [if_neg h1] at he
    cases he

theorem filter_source_elements_useful (t : SourceTreeElement) :
    ∀ e ∈ filter_source_elements t, usefulElement e = true := by
  refine SourceTreeElement.rec
    (motive_1 := fun t => ∀ e ∈ filter_source_elements t, usefulElement e = true)
    (motive_2 := fun oc => ∀ e ∈ (match oc with
      | some cs => filter_source_list cs
      | none => ([] : List ScreenElement)), usefulElement e = true)
    (motive_3 := fun cs => ∀ e ∈ filter_source_list cs, usefulElement e = true)
    ?_ ?_ ?_ ?_ ?_ t
  · intro ty rect label name value rawIdentifier isVisible children ih e he
    rw [filter_source_elements.eq_def] at he
    rcases List.mem_append.mp he with h | h
    · exact filter_current_useful ty rect label name value rawIdentifier isVisible e h
    · exact ih e h
  · intro e he
    cases he
  · intro cs ih
    exact ih
  · intro e he
    rw [filter_source_list] at he
    cases he
  · intro head tail ih1 ih2 e he
    rw [filter_source_list] at he
    rcases List.mem_append.mp he with h | h
    exacts [ih1 e h, ih2 e h]

/-- C3: on all three backends' element-extraction paths — the WebDriverAgent
source-tree filter, the Android ADB/XML dump walk, and the UiAutomator2 XML
walk — every returned element has at least one of text, label, name,
identifier non-empty. -/
theorem all_backends_elements_useful :
    (∀ (t : SourceTreeElement) (e : ScreenElement),
        e ∈ filter_source_elements t → usefulElement e = true) ∧
    (∀ (scale : ℚ) (n : XmlNode) (e : ScreenElement),
        e ∈ collect_elements scale n → usefulElement e = true) ∧
    (∀ (pr : Except Unit XmlNode) (e : ScreenElement),
        e ∈ ua2_parse_xml_elements pr → usefulElement e = true) := by
  refine ⟨fun t e he => filter_source_elements_useful t e he,
          fun scale n e he => collect_elements_useful scale n e he,
          fun pr e he => ?_⟩
  cases pr with
  | error u => cases he
  | ok root => exact ua2_parse_node_useful root e he

/-- Every element emitted for a single node by `_collect_elements` has a
strictly positive-area rectangle (the explicit `rect.width > 0 and
rect.height > 0` guard). -/
theorem collect_current_posarea (scale : ℚ) (n : XmlNode) :
    ∀ e ∈ collect_current scale n, 0 < e.rect.width ∧ 0 < e.rect.height := by
  intro e he
  unfold collect_current at he
  by_cases h : (pyTruthy (n.getAttr "text") || pyTruthy (n.getAttr "content-desc")
      || pyTruthy (n.getAttr "hint")) = true
  · rw [if_pos h] at he
    by_cases h2 : (get_screen_element_rect scale n).width > 0 ∧
        (get_screen_element_rect scale n).height > 0
    · rw [if_pos h2] at he
      have he' := List.mem_singleton.mp he
      subst he'
      exact h2
    · rw [if_neg h2] at he
      cases he
  · rw [if_neg h] at he
    cases he

theorem collect_elements_posarea (scale : ℚ) (n : XmlNode) :
    ∀ e ∈ collect_elements scale n, 0 < e.rect.width ∧ 0 < e.rect.height := by
  refine XmlNode.rec
    (motive_1 := fun n => ∀ e ∈ collect_elements scale n,
      0 < e.rect.width ∧ 0 < e.rect.height)
    (motive_2 := fun cs => ∀ e ∈ collect_elements_list scale cs,
      0 < e.rect.width ∧ 0 < e.rect.height)
    ?_ ?_ ?_ n
  · intro attrs children ih e he
    rw [collect_elements] at he
    rcases List.mem_append.mp he with h | h
    · exact ih e h
    · exact collect_current_posarea scale _ e h
  · intro e he
    rw [collect_elements_list] at he
    cases he
  · intro head tail ih1 ih2 e he
    rw [collect_elements_list] at he
    rcases List.mem_append.mp he with h | h
    exacts [ih1 e h, ih2 e h]

/-- C6 counterexample: the WebDriverAgent filter returns a zero-area element
(a visible, labelled `Button` with rect `(0,0,0,0)`); no area check exists on
that path. -/
theorem wda_returns_zero_area_element :
    ∃ e ∈ filter_source_elements
        (.mk "Button" ⟨0, 0, 0, 0⟩ (some "OK") none none none (some "1") none),
      ¬(0 < e.rect.width ∧ 0 < e.rect.height) := by decide

/-- C6 amended: zero-area rectangles are dropped on the Android ADB/XML dump
path only; the WebDriverAgent and UiAutomator2 paths perform no area check
and can return zero-area elements. -/
theorem zero_area_dropped_only_on_adb_path :
    (∀ (scale : ℚ) (n : XmlNode) (e : ScreenElement),
        e ∈ collect_elements scale n → 0 < e.rect.width ∧ 0 < e.rect.height) ∧
    (∃ e ∈ filter_source_elements
        (.mk "Image" ⟨3, 4, 0, 7⟩ none (some "pic") none none (some "1") none),
      e.rect.width = 0) ∧
    (∃ e ∈ ua2_parse_xml_elements
        (.ok (.node [("text", "hi"), ("bounds", "[5,5][5,9]")] [])),
      e.rect.width = 0) := by
  refine ⟨fun scale n e he => collect_elements_posarea scale n e he, by decide, by decide⟩

/-- Membership of the sample element in the sample Android dump's collected
list (used to discharge witness hypotheses). -/
theorem android_sample_membership :
    ({ type := "text", rect := ⟨0, 0, 10, 20⟩, label := some "", text := some "hi" } : ScreenElement) ∈
      collect_elements 1 (.node [("text", "hi"), ("bounds", "[0,0][10,20]")] []) := by
  have hr : get_screen_element_rect 1 (.node [("text", "hi"), ("bounds", "[0,0][10,20]")] []) =
      ⟨0, 0, 10, 20⟩ := by
    have hb : parseBounds ((XmlNode.node [("text", "hi"), ("bounds", "[0,0][10,20]")]
        []).getAttrD "bounds" "") = some (0, 0, 10, 20) := by decide
    rw [get_screen_element_rect, hb]
    norm_num [pyInt]
  rw [collect_elements, collect_elements_list, collect_current, hr]
  decide

/-- Witness for C6 (amended): the sample ADB-path element has positive area. -/
theorem zero_area_dropped_only_on_adb_path_witness :
    0 < ({ type := "text", rect := ⟨0, 0, 10, 20⟩, label := some "", text := some "hi" } : ScreenElement).rect.width ∧
    0 < ({ type := "text", rect := ⟨0, 0, 10, 20⟩, label := some "", text := some "hi" } : ScreenElement).rect.height :=
  zero_area_dropped_only_on_adb_path.1 1
    (.node [("text", "hi"), ("bounds", "[0,0][10,20]")] []) _ android_sample_membership

/-- C2: any failure of the UiAutomator2 fast path — not enabled, readiness
probe failing or raising, server not installed, start raising, wait timing
out, or the element fetch itself raising — is caught inside
`AndroidRobot.get_elements_on_screen`, which then returns exactly the
ADB `uiautomator dump` fallback's element list, raising nothing. -/
theorem android_get_elements_fallback (env : Ua2Env) (scale : ℚ) (dump : XmlNode)
    (h : get_ua2_server env = false ∨ ∃ u, env.elementsResult = .error u) :
    android_get_elements_on_screen env scale dump = .ok (collect_elements scale dump) := by
  unfold android_get_elements_on_screen
  rcases h with h | ⟨u, h⟩
  · rw [h]
    simp
  · rw [h]
    by_cases hs : get_ua2_server env <;> simp [hs]

/-- Witness for C2: `use_appium` is on, the readiness probe raises, and the
server APK is reported not installed — the spec's fast-path-fallback
scenario. -/
theorem android_get_elements_fallback_witness :
    get_ua2_server ⟨true, [.error ()], .ok false, false, .ok []⟩ = false ∧
    android_get_elements_on_screen ⟨true, [.error ()], .ok false, false, .ok []⟩ 1
        (.node [("text", "hi"), ("bounds", "[0,0][10,20]")] []) =
      .ok (collect_elements 1 (.node [("text", "hi"), ("bounds", "[0,0][10,20]")] [])) :=
  ⟨by decide,
   android_get_elements_fallback ⟨true, [.error ()], .ok false, false, .ok []⟩ 1
     (.node [("text", "hi"), ("bounds", "[0,0][10,20]")] []) (Or.inl (by decide))⟩

/-- Witness for C3: one concrete element from each of the three paths. -/
theorem all_backends_elements_useful_witness :
    usefulElement { type := "Button", rect := ⟨0, 0, 10, 10⟩, label := some "OK" } = true ∧
    usefulElement { type := "text", rect := ⟨0, 0, 10, 20⟩, label := some "", text := some "hi" } = true ∧
    usefulElement { type := "text", rect := ⟨0, 0, 10, 20⟩, label := some "", text := some "hi", identifier := none } = true :=
  ⟨all_backends_elements_useful.1
      (.mk "Button" ⟨0, 0, 10, 10⟩ (some "OK") none none none (some "1") none) _ (by decide),
   all_backends_elements_useful.2.1 1
      (.node [("text", "hi"), ("bounds", "[0,0][10,20]")] []) _ android_sample_membership,
   all_backends_elements_useful.2.2
      (.ok (.node [("text", "hi"), ("bounds", "[0,0][10,20]")] [])) _ (by decide)⟩

/-- C1: whenever session creation succeeds, `within_session` issues exactly
one session-create request and exactly one session-delete request for the
created id, on every exit path — both when `fn` returns normally and when it
raises — and passes `fn`'s result (or exception) through. -/
theorem within_session_discipline {α : Type} (baseUrl sid : String)
    (fn : String → Except String α × List HttpRequest)
    (hfn : ∀ r ∈ (fn (baseUrl ++ "/session/" ++ sid)).2,
        isSessionCreate baseUrl r = false ∧ isSessionDeleteFor baseUrl sid r = false) :
    (within_session baseUrl sid fn).2.countP (isSessionCreate baseUrl) = 1 ∧
    (within_session baseUrl sid fn).2.countP (isSessionDeleteFor baseUrl sid) = 1 ∧
    (within_session baseUrl sid fn).1 = (fn (baseUrl ++ "/session/" ++ sid)).1 := by
  have hcnt0 : (fn (baseUrl ++ "/session/" ++ sid)).2.countP (isSessionCreate baseUrl) = 0 :=
    List.countP_eq_zero.mpr (fun r hr => by simpa using (hfn r hr).1)
  have hcnt0' : (fn (baseUrl ++ "/session/" ++ sid)).2.countP (isSessionDeleteFor baseUrl sid) = 0 :=
    List.countP_eq_zero.mpr (fun r hr => by simpa using (hfn r hr).2)
  have hcreate : isSessionCreate baseUrl (.post (baseUrl ++ "/session")) = true := by
    simp [isSessionCreate]
  have hnotdel : isSessionDeleteFor baseUrl sid (.post (baseUrl ++ "/session")) = false := by
    simp [isSessionDeleteFor]
  have hdel : isSessionDeleteFor baseUrl sid (.delete (baseUrl ++ "/session/" ++ sid)) = true := by
    simp [isSessionDeleteFor]
  have hnotcreate : isSessionCreate baseUrl (.delete (baseUrl ++ "/session/" ++ sid)) = false := by
    simp [isSessionCreate]
  unfold within_session create_session delete_session
  rcases hres : fn (baseUrl ++ "/session/" ++ sid) with ⟨r, fnLog⟩
  have hcnt1 : fnLog.countP (isSessionCreate baseUrl) = 0 := by
    rw [hres] at hcnt0; exact hcnt0
  have hcnt1' : fnLog.countP (isSessionDeleteFor baseUrl sid) = 0 := by
    rw [hres] at hcnt0'; exact hcnt0'
  cases r with
  | ok v =>
    refine ⟨?_, ?_, ?_⟩ <;>
      simp [List.countP_append, List.countP_cons, hcnt1, hcnt1', hcreate, hdel, hnotdel,
        hnotcreate, hres]
  | error e =>
    refine ⟨?_, ?_, ?_⟩ <;>
      simp [List.countP_append, List.countP_cons, hcnt1, hcnt1', hcreate, hdel, hnotdel,
        hnotcreate, hres]

/-- Witness for C1: a concrete `fn` posting one action request and returning
normally. -/
theorem within_session_discipline_witness :
    (within_session "http://localhost:8100" "ABC"
        (fun u => (Except.ok (0 : Nat), [HttpRequest.post (u ++ "/actions")]))).2.countP
        (isSessionCreate "http://localhost:8100") = 1 ∧
    (within_session "http://localhost:8100" "ABC"
        (fun u => (Except.ok (0 : Nat), [HttpRequest.post (u ++ "/actions")]))).2.countP
        (isSessionDeleteFor "http://localhost:8100" "ABC") = 1 ∧
    (within_session "http://localhost:8100" "ABC"
        (fun u => (Except.ok (0 : Nat), [HttpRequest.post (u ++ "/actions")]))).1 =
      ((fun u => (Except.ok (0 : Nat), [HttpRequest.post (u ++ "/actions")]))
        ("http://localhost:8100" ++ "/session/" ++ "ABC")).1 :=
  within_session_discipline "http://localhost:8100" "ABC" _ (by decide)

/-- Witness for C4 at `x = 7`, `s = 3/2`. -/
theorem toLogical_toPixels_roundtrip_witness :
    (0 : Int) ≤ 7 ∧ (1 : ℚ) ≤ 3/2 ∧
      |toLogical (toPixels 7 (3/2)) (3/2) - 7| ≤ 1 :=
  ⟨by norm_num, by norm_num,
   toLogical_toPixels_roundtrip 7 (3/2) (by norm_num) (by norm_num)⟩

/-- C5: on a 1000×2000 logical screen at scale 1, `AndroidRobot.swipe("left")`
issues exactly `adb shell input swipe 800 1000 200 1000 1000`. -/
theorem android_swipe_left_scenario :
    android_swipe ⟨1000, 2000, 1⟩ 1 .left =
      .ok ["shell", "input", "swipe", "800", "1000", "200", "1000", "1000"] := by
  have h80 : pyInt (((1000 : Int) : ℚ) * (80/100)) = 800 := by norm_num [pyInt]
  have h20 : pyInt (((1000 : Int) : ℚ) * (20/100)) = 200 := by norm_num [pyInt]
  have hc : pyFloorDiv 2000 2 = 1000 := by norm_num [pyFloorDiv, Int.fdiv]
  have hsc8 : pyInt (((800 : Int) : ℚ) * 1) = 800 := by norm_num [pyInt]
  have hsc2 : pyInt (((200 : Int) : ℚ) * 1) = 200 := by norm_num [pyInt]
  have hsc1 : pyInt (((1000 : Int) : ℚ) * 1) = 1000 := by norm_num [pyInt]
  simp only [android_swipe, hc, h80, h20, hsc8, hsc2, hsc1]
  rfl


/-- C7 counterexample: a non-ASCII `send_keys` with a working `ime set`
leaves the Unicode IME active — the previously active IME is not restored. -/
theorem send_keys_does_not_restore_ime :
    (android_send_keys true "한" ⟨"com.samsung.android.honeyboard/.service.HoneyBoardService"⟩).1 ≠
      (⟨"com.samsung.android.honeyboard/.service.HoneyBoardService"⟩ : ImeState) := by decide

/-- C7 amended: for non-ASCII text, `send_keys` switches the active IME to
the Unicode IME and sends the broadcast, performing no restore: the Unicode
IME stays active after the call. -/
theorem send_keys_nonascii_leaves_unicode_ime (text : String) (st : ImeState)
    (h : isAsciiStr text = false) :
    (android_send_keys true text st).1.activeIme = UNICODE_IME ∧
    (android_send_keys true text st).2 = [.imeSet UNICODE_IME, .broadcastText text] := by
  simp [android_send_keys, h]

/-- Witness for C7 (amended) at the Korean text `"한"`. -/
theorem send_keys_nonascii_leaves_unicode_ime_witness :
    isAsciiStr "한" = false ∧
    (android_send_keys true "한" ⟨"com.sec.ime"⟩).1.activeIme = UNICODE_IME ∧
    (android_send_keys true "한" ⟨"com.sec.ime"⟩).2 =
      [.imeSet UNICODE_IME, .broadcastText "한"] :=
  ⟨by decide,
   (send_keys_nonascii_leaves_unicode_ime "한" ⟨"com.sec.ime"⟩ (by decide)).1,
   (send_keys_nonascii_leaves_unicode_ime "한" ⟨"com.sec.ime"⟩ (by decide)).2⟩

/-- C8 counterexample: with the availability probe passing (`sips`
installed) but both transformers erroring, `mobile_take_screenshot` on a
valid PNG returns the dispatcher's error text, not the original PNG. -/
theorem take_screenshot_transform_error_is_error_text :
    mobile_take_screenshot ⟨true, false, .error (), .error ()⟩ [1, 2, 3] 100 200 ≠
      .image [1, 2, 3] "image/png" ∧
    mobile_take_screenshot ⟨true, false, .error (), .error ()⟩ [1, 2, 3] 100 200 =
      .text "Image scaling unavailable (requires Sips or ImageMagick)." := by decide

/-- C8 amended: when the PNG validates and the transform step is skipped
because neither `sips` nor ImageMagick is available, the original PNG bytes
are returned; but a transform that is attempted and raises propagates to the
dispatcher's generic handler and fails the call. -/
theorem take_screenshot_unavailable_returns_original (env : TransformEnv)
    (screenshot : List Nat) (w h : Int) (hw : 0 < w) (hh : 0 < h)
    (hs : is_scaling_available env = false) :
    mobile_take_screenshot env screenshot w h = .image screenshot "image/png" := by
  simp [mobile_take_screenshot, hs, not_le.mpr hw, not_le.mpr hh]

/-- Witness for C8 (amended): both transformers unavailable. -/
theorem take_screenshot_unavailable_returns_original_witness :
    (0 : Int) < 100 ∧ (0 : Int) < 200 ∧
    is_scaling_available ⟨false, false, .error (), .error ()⟩ = false ∧
    mobile_take_screenshot ⟨false, false, .error (), .error ()⟩ [9] 100 200 =
      .image [9] "image/png" :=
  ⟨by decide, by decide, by decide,
   take_screenshot_unavailable_returns_original ⟨false, false, .error (), .error ()⟩ [9]
     100 200 (by decide) (by decide) (by decide)⟩

/-- C9: with every precondition passing, `IosRobot.hide_keyboard`,
`Simctl.hide_keyboard` and `Simctl.clear_text_field` all fail with
`AttributeError`, because the `WebDriverAgent` class defines neither
`hide_keyboard` nor `clear_text_field`. -/
theorem hide_keyboard_delegation_raises_attribute_error :
    ios_hide_keyboard ⟨true, true, true, true⟩ = .error (.attributeError "hide_keyboard") ∧
    simctl_hide_keyboard true = .error (.attributeError "hide_keyboard") ∧
    simctl_clear_text_field true = .error (.attributeError "clear_text_field") := by decide

/-- C10: `PNG.get_dimensions` raises the validation `ValueError` exactly
when the first 8 bytes differ from the PNG signature; and the 8-byte buffer
equal to the signature itself (< 24 bytes, valid signature) instead raises
the struct-unpack error — the function is not total on short well-signed
buffers. -/
theorem png_get_dimensions_signature_and_partiality :
    (∀ buffer : List Nat,
        (∃ m, png_get_dimensions buffer = .error (.valueError m)) ↔
          buffer.take 8 ≠ pngSignature) ∧
    (pngSignature.take 8 = pngSignature ∧ pngSignature.length < 24 ∧
      png_get_dimensions pngSignature = .error .structUnpackError) := by
  constructor
  · intro buffer
    constructor
    · rintro ⟨m, hm⟩
      intro hsig
      rw [png_get_dimensions, if_neg (by simpa using hsig)] at hm
      revert hm
      split <;> intro hm <;> cases hm
    · intro hsig
      exact ⟨"not a valid PNG", by rw [png_get_dimensions, if_pos hsig]⟩
  · exact ⟨by decide, by decide, by decide⟩

end AppiumMcp
